import Mathlib

/-!
Verification of the `useMediaQuery` external-store adapter.

The repository has two source variants:
* `src/index.tsx`: a per-query cached store (`createMediaQueryStore`,
  `storeCache`/`getStore`, `useMediaQuery`) that subscribes only to the
  MediaQueryList change event, with an SSR fallback branch;
* an unnamed variant: per-call `getSnapshot`/`subscribe` closures where
  `subscribe` registers the change listener plus window
  orientationchange and resize listeners through one AbortController.

The browser environment is embedded as an explicit `World`: whether a
window exists, the live per-query match state, the DOM listener list and
an allocator for AbortController identities.  Operations that touch
`window` in source positions where it may be undefined return `Except`.
-/

/-- An event target a listener can be registered on: the change event of
the MediaQueryList for a query string, or the window resize /
orientationchange events. -/
inductive EventTarget where
  | mql (query : String)
  | winResize
  | winOrientation
deriving DecidableEq, Repr

/-- One DOM listener registration: target, the identity of the callback
(callbacks are identified by a numeric id, mirroring JS function
identity), and the optional AbortSignal it was registered with. -/
structure Reg where
  target : EventTarget
  cb : Nat
  signal : Option Nat
deriving DecidableEq, Repr

/-- The browser environment: window presence, the live match state of
every media query, the registered listeners, and a fresh-id source for
AbortController allocation. -/
structure World where
  hasWindow : Bool
  mediaMatches : String → Bool
  regs : List Reg
  nextCtrl : Nat

/-- JS exceptions the embedded code can raise: referencing `window`
where it is undefined. -/
inductive JsError where
  | windowUndefined
deriving DecidableEq, Repr

/-- The object returned by `window.matchMedia(query)`; its `matches`
property is live, so the object is determined by its query string. -/
structure MediaQueryList where
  query : String
deriving DecidableEq, Repr

/-- `window.matchMedia(query)`: throws a ReferenceError when there is no
window, otherwise returns the live MediaQueryList for the query. -/
def matchMedia (w : World) (q : String) : Except JsError MediaQueryList :=
  if w.hasWindow then .ok ⟨q⟩ else .error .windowUndefined

/-- `mql.matches`: the environment's current match result for the query,
read at call time. -/
def MediaQueryList.liveMatches (mql : MediaQueryList) (w : World) : Bool :=
  w.mediaMatches mql.query

/-- Whether a listener with this target and callback is already
registered (DOM listener identity ignores the signal). -/
def hasListener (regs : List Reg) (t : EventTarget) (cb : Nat) : Bool :=
  regs.any fun r => decide (r.target = t ∧ r.cb = cb)

/-- `target.addEventListener(type, cb, {signal})`: appends a
registration unless an identical (target, callback) one exists. -/
def addEventListener (w : World) (t : EventTarget) (cb : Nat)
    (sig : Option Nat) : World :=
  if hasListener w.regs t cb then w
  else { w with regs := w.regs ++ [⟨t, cb, sig⟩] }

/-- `target.removeEventListener(type, cb)`: removes the registration
with this target and callback, if present. -/
def removeEventListener (w : World) (t : EventTarget) (cb : Nat) : World :=
  { w with regs := w.regs.filter fun r => !(decide (r.target = t ∧ r.cb = cb)) }

/-- `controller.abort()`: removes every listener registered with this
controller's signal.  Controllers are never reused after abort in this
code, so an aborted-id set is not tracked. -/
def abortListeners (w : World) (cid : Nat) : World :=
  { w with regs := w.regs.filter fun r => !(decide (r.signal = some cid)) }

/-- The cleanup closure a `subscribe` call returns: the SSR no-op, the
single `removeEventListener` of the cached-store variant, or the
AbortController abort of the unnamed variant. -/
inductive Cleanup where
  | noop
  | removeChange (q : String) (cb : Nat)
  | abortCtrl (cid : Nat)
deriving DecidableEq, Repr

/-- Invoking a cleanup closure on the current world. -/
def runCleanup (c : Cleanup) (w : World) : World :=
  match c with
  | .noop => w
  | .removeChange q cb => removeEventListener w (.mql q) cb
  | .abortCtrl cid => abortListeners w cid

/-- A store built by `createMediaQueryStore`: either the SSR fallback
object or a store closed over the live MediaQueryList for a query. -/
inductive MediaQueryStore where
  | ssr
  | live (query : String)
deriving DecidableEq, Repr

/-- `createMediaQueryStore(query)`: when `typeof window === 'undefined'`
return the SSR fallback; otherwise call `window.matchMedia(query)` and
close over the resulting MediaQueryList. -/
def createMediaQueryStore (w : World) (q : String) :
    Except JsError MediaQueryStore :=
  if w.hasWindow = false then .ok .ssr
  else do
    let mql ← matchMedia w q
    .ok (.live mql.query)

/-- The store's `getSnapshot`: `false` for the SSR store, otherwise the
live `mediaQuery.matches` read at call time. -/
def MediaQueryStore.getSnapshot : MediaQueryStore → World → Bool
  | .ssr, _ => false
  | .live q, w => w.mediaMatches q

/-- The store's `subscribe(callback)`: the SSR store registers nothing
and returns a no-op cleanup; the live store adds the change listener on
its MediaQueryList and returns a cleanup removing exactly it. -/
def MediaQueryStore.subscribe :
    MediaQueryStore → Nat → World → World × Cleanup
  | .ssr, _, w => (w, .noop)
  | .live q, cb, w => (addEventListener w (.mql q) cb none, .removeChange q cb)

/-- The module-level `storeCache`, a map from query string to store. -/
abbrev Registry := List (String × MediaQueryStore)

/-- `storeCache.has`/`storeCache.get` combined: look a query up in the
cache. -/
def lookupStore : Registry → String → Option MediaQueryStore
  | [], _ => none
  | (k, s) :: rest, q => if k = q then some s else lookupStore rest q

/-- `getStore(query)`: return the cached store if present, otherwise
build one with the factory, insert it and return it. -/
def getStore (w : World) (reg : Registry) (q : String) :
    Except JsError (Registry × MediaQueryStore) :=
  match lookupStore reg q with
  | some s => .ok (reg, s)
  | none => do
    let s ← createMediaQueryStore w q
    .ok ((q, s) :: reg, s)

/-- Modelled from the spec: the `useSyncExternalStore` binding of the UI
framework (an external collaborator, not part of the sources) returns,
at each synchronous read, exactly the store's `getSnapshot()` at that
instant.  `useMediaQuery(query)` looks the store up through the registry
and hands its pair to that binding. -/
def useMediaQuery (w : World) (reg : Registry) (q : String) :
    Except JsError (Registry × Bool) := do
  let (regOut, s) ← getStore w reg q
  .ok (regOut, s.getSnapshot w)

namespace V2

/-- The unnamed variant's `getSnapshot(query)` closure: calls
`window.matchMedia(query)` at every read and returns its `matches`. -/
def getSnapshot (q : String) (w : World) : Except JsError Bool := do
  let mql ← matchMedia w q
  .ok (mql.liveMatches w)

/-- The unnamed variant's `subscribe(query)(callback)`: allocates an
AbortController, calls `window.matchMedia(query)`, registers the change
listener plus window orientationchange and resize listeners under the
controller's signal, and returns a cleanup that aborts the controller. -/
def subscribe (q : String) (cb : Nat) (w : World) :
    Except JsError (World × Cleanup) := do
  let cid := w.nextCtrl
  let w1 : World := { w with nextCtrl := cid + 1 }
  let mql ← matchMedia w1 q
  let w2 := addEventListener w1 (.mql mql.query) cb (some cid)
  let w3 := addEventListener w2 .winOrientation cb (some cid)
  let w4 := addEventListener w3 .winResize cb (some cid)
  .ok (w4, .abortCtrl cid)

end V2

/-- Modelled from the spec: the environment's change notification for a
query — the match state moves to `m`, and each callback registered on
that query's MediaQueryList change event is invoked before the UI
runtime's next `getSnapshot` read.  Returns the post-change world and
the list of invoked callback ids, in registration order. -/
def dispatchChange (w : World) (q : String) (m : String → Bool) :
    World × List Nat :=
  let wNew : World := { w with mediaMatches := m }
  (wNew, (wNew.regs.filter fun r => decide (r.target = EventTarget.mql q)).map Reg.cb)

/-- Every registration carries either no signal or a signal id already
allocated: the registry of controllers is consistent with the
allocator.  Holds for the empty world and is preserved by the embedded
operations. -/
def ctrlFresh (n : Nat) (r : Reg) : Bool :=
  match r.signal with
  | none => true
  | some cid => decide (cid < n)

/-- All registrations have controller ids below the allocator's next
id. -/
def ctrlsFresh (w : World) : Bool := w.regs.all (ctrlFresh w.nextCtrl)

/-- No two cache entries share a query-string key. -/
def uniqueKeys : Registry → Bool
  | [] => true
  | (k, _) :: rest => !(lookupStore rest k).isSome && uniqueKeys rest

/-- A concrete browser world with no registered listeners, used to
instantiate theorems with hypotheses. -/
def w0 : World :=
  { hasWindow := true, mediaMatches := fun _ => false, regs := [], nextCtrl := 0 }

/-- A concrete windowless world, used to instantiate the SSR
theorems. -/
def wSSR : World :=
  { hasWindow := false, mediaMatches := fun _ => false, regs := [], nextCtrl := 0 }

/-! ### Helper lemmas -/

theorem createMediaQueryStore_eq (w : World) (q : String) :
    createMediaQueryStore w q =
      .ok (if w.hasWindow then MediaQueryStore.live q else .ssr) := by
  unfold createMediaQueryStore matchMedia
  cases h : w.hasWindow with
  | false => simp [h]
  | true => simp only [h]; rfl

theorem filter_not_of_any_false {α} {p : α → Bool} {l : List α}
    (h : l.any p = false) : l.filter (fun a => !p a) = l := by
  refine List.filter_eq_self.mpr fun a ha => ?_
  cases hpa : p a with
  | false => simp
  | true => exact absurd (List.any_eq_true.mpr ⟨a, ha, hpa⟩) (by simp [h])

theorem filter_idem {α} (p : α → Bool) (l : List α) :
    (l.filter p).filter p = l.filter p :=
  List.filter_eq_self.mpr fun _a ha => (List.mem_filter.mp ha).2

theorem hasListener_append (l1 l2 : List Reg) (t : EventTarget) (cb : Nat) :
    hasListener (l1 ++ l2) t cb = (hasListener l1 t cb || hasListener l2 t cb) :=
  List.any_append

theorem addEventListener_of_not {w : World} {t : EventTarget} {cb : Nat}
    (sig : Option Nat) (h : hasListener w.regs t cb = false) :
    addEventListener w t cb sig = { w with regs := w.regs ++ [⟨t, cb, sig⟩] } := by
  unfold addEventListener
  simp [h]

theorem hasListener_addEventListener (w : World) (t : EventTarget) (cb : Nat)
    (sig : Option Nat) :
    hasListener (addEventListener w t cb sig).regs t cb = true := by
  unfold addEventListener
  cases h : hasListener w.regs t cb with
  | true => simpa using h
  | false =>
    simp only [h, Bool.false_eq_true, if_false]
    rw [hasListener, List.any_append]
    simp [hasListener, List.any_cons]

theorem cb_mem_dispatch {w : World} {q : String} {cb : Nat}
    (h : hasListener w.regs (.mql q) cb = true) (m : String → Bool) :
    cb ∈ (dispatchChange w q m).2 := by
  rcases List.any_eq_true.mp h with ⟨r, hr, hpr⟩
  rcases of_decide_eq_true hpr with ⟨ht, hcb⟩
  exact List.mem_map.mpr ⟨r, List.mem_filter.mpr ⟨hr, by simp [ht]⟩, hcb⟩

theorem hasListener_remove_ne {w : World} {t t' : EventTarget} {cb1 cb2 : Nat}
    (hne : cb1 ≠ cb2) (h : hasListener w.regs t cb2 = true) :
    hasListener (removeEventListener w t' cb1).regs t cb2 = true := by
  rcases List.any_eq_true.mp h with ⟨r, hr, hpr⟩
  rcases of_decide_eq_true hpr with ⟨ht, hcb⟩
  refine List.any_eq_true.mpr ⟨r, List.mem_filter.mpr ⟨hr, ?_⟩, hpr⟩
  have hne' : r.cb ≠ cb1 := by rw [hcb]; exact fun hc => hne hc.symm
  simp [hne']

theorem hasListener_remove_self (w : World) (t : EventTarget) (cb : Nat) :
    hasListener (removeEventListener w t cb).regs t cb = false := by
  rw [Bool.eq_false_iff]
  intro hcon
  rcases List.any_eq_true.mp hcon with ⟨r, hr, hpr⟩
  have hkeep := (List.mem_filter.mp hr).2
  simp [hpr] at hkeep

theorem filter_signal_fresh {rs : List Reg} {n : Nat}
    (hf : rs.all (ctrlFresh n) = true) :
    rs.filter (fun r => !(decide (r.signal = some n))) = rs := by
  refine List.filter_eq_self.mpr fun r hr => ?_
  have hall := List.all_eq_true.mp hf r hr
  unfold ctrlFresh at hall
  cases hs : r.signal with
  | none => simp [hs]
  | some c =>
    rw [hs] at hall
    have hlt : c < n := of_decide_eq_true hall
    simp [hs, Nat.ne_of_lt hlt]

theorem getStore_hit {reg : Registry} {q : String} {s : MediaQueryStore}
    (w : World) (h : lookupStore reg q = some s) :
    getStore w reg q = .ok (reg, s) := by
  unfold getStore
  rw [h]

theorem getStore_miss {reg : Registry} {q : String} (w : World)
    (h : lookupStore reg q = none) :
    getStore w reg q =
      .ok ((q, if w.hasWindow then MediaQueryStore.live q else .ssr) :: reg,
        if w.hasWindow then MediaQueryStore.live q else .ssr) := by
  unfold getStore
  rw [h, createMediaQueryStore_eq]
  rfl

theorem lookupStore_cons_self (q : String) (s : MediaQueryStore)
    (reg : Registry) : lookupStore ((q, s) :: reg) q = some s := by
  simp [lookupStore]

theorem useMediaQuery_eq {w : World} {reg regOut : Registry} {q : String}
    {s : MediaQueryStore} (h : getStore w reg q = .ok (regOut, s)) :
    useMediaQuery w reg q = .ok (regOut, s.getSnapshot w) := by
  unfold useMediaQuery
  rw [h]
  rfl

theorem hasListener_singleton_ne {t t' : EventTarget} {cb cb' : Nat}
    {sig : Option Nat} (h : ¬ t = t') :
    hasListener [⟨t, cb, sig⟩] t' cb' = false := by
  simp [hasListener, h]

theorem addEventListener_mk {hwin : Bool} {mm : String → Bool} {rs : List Reg}
    {nc : Nat} {t : EventTarget} {cb : Nat} (sig : Option Nat)
    (h : hasListener rs t cb = false) :
    addEventListener ⟨hwin, mm, rs, nc⟩ t cb sig
      = ⟨hwin, mm, rs ++ [⟨t, cb, sig⟩], nc⟩ := by
  unfold addEventListener
  simp [show hasListener (World.regs ⟨hwin, mm, rs, nc⟩) t cb = false from h]

theorem V2_subscribe_eq {w : World} {q : String} {cb : Nat}
    (hw : w.hasWindow = true)
    (h1 : hasListener w.regs (.mql q) cb = false)
    (h2 : hasListener w.regs .winOrientation cb = false)
    (h3 : hasListener w.regs .winResize cb = false) :
    V2.subscribe q cb w =
      .ok ({ w with
              nextCtrl := w.nextCtrl + 1,
              regs := w.regs ++ [⟨.mql q, cb, some w.nextCtrl⟩,
                ⟨.winOrientation, cb, some w.nextCtrl⟩,
                ⟨.winResize, cb, some w.nextCtrl⟩] },
           Cleanup.abortCtrl w.nextCtrl) := by
  obtain ⟨hwin, mm, rs, nc⟩ := w
  subst hw
  have g1 : hasListener rs (EventTarget.mql q) cb = false := h1
  have g2 : hasListener rs EventTarget.winOrientation cb = false := h2
  have g3 : hasListener rs EventTarget.winResize cb = false := h3
  have gg2 : hasListener (rs ++ [⟨EventTarget.mql q, cb, some nc⟩])
      EventTarget.winOrientation cb = false := by
    rw [hasListener_append, g2, hasListener_singleton_ne (by simp)]
    rfl
  have gg3 : hasListener ((rs ++ [⟨EventTarget.mql q, cb, some nc⟩]) ++
      [⟨EventTarget.winOrientation, cb, some nc⟩])
      EventTarget.winResize cb = false := by
    rw [hasListener_append, hasListener_append, g3,
      hasListener_singleton_ne (by simp), hasListener_singleton_ne (by simp)]
    rfl
  rw [show (V2.subscribe q cb ⟨true, mm, rs, nc⟩ : Except JsError (World × Cleanup))
      = Except.ok (addEventListener (addEventListener (addEventListener
          ⟨true, mm, rs, nc + 1⟩ (EventTarget.mql q) cb (some nc))
          EventTarget.winOrientation cb (some nc))
          EventTarget.winResize cb (some nc),
        Cleanup.abortCtrl nc) from rfl]
  rw [addEventListener_mk (some nc) g1, addEventListener_mk (some nc) gg2,
    addEventListener_mk (some nc) gg3]
  simp [List.append_assoc]

theorem remove_add_cancel {w : World} {t : EventTarget} {cb : Nat}
    (sig : Option Nat) (h : hasListener w.regs t cb = false) :
    removeEventListener (addEventListener w t cb sig) t cb = w := by
  obtain ⟨hwin, mm, rs, nc⟩ := w
  have h' : hasListener rs t cb = false := h
  rw [addEventListener_mk sig h']
  unfold removeEventListener
  simp only [List.filter_append, filter_not_of_any_false h']
  simp

theorem removeEventListener_idem (w : World) (t : EventTarget) (cb : Nat) :
    removeEventListener (removeEventListener w t cb) t cb
      = removeEventListener w t cb := by
  unfold removeEventListener
  simp [filter_idem]

theorem abortListeners_idem (w : World) (cid : Nat) :
    abortListeners (abortListeners w cid) cid = abortListeners w cid := by
  unfold abortListeners
  simp [filter_idem]

/-! ### Claims -/

/-- C1: when the store is constructed with no live window,
`createMediaQueryStore` returns the SSR fallback store without throwing:
its `getSnapshot` is unconditionally `false`, its `subscribe` registers
no listeners and returns the no-op cleanup, invoking that cleanup does
nothing observable, and the public read path completes without an
exception, returning `false`. -/
theorem C1_ssr_fallback (w : World) (q : String) (cb : Nat) (reg : Registry)
    (hw : w.hasWindow = false) :
    createMediaQueryStore w q = .ok .ssr ∧
    MediaQueryStore.ssr.getSnapshot w = false ∧
    MediaQueryStore.ssr.subscribe cb w = (w, .noop) ∧
    runCleanup .noop w = w ∧
    (lookupStore reg q = none →
      useMediaQuery w reg q = .ok ((q, .ssr) :: reg, false)) := by
  refine ⟨?_, rfl, rfl, rfl, fun hl => ?_⟩
  · simp [createMediaQueryStore_eq, hw]
  · have hr := useMediaQuery_eq (getStore_miss w hl)
    simp only [hw, Bool.false_eq_true, if_false] at hr
    simpa using hr

/-- Witness for C1: a windowless world, an empty cache and a concrete
query. -/
theorem C1_ssr_fallback_witness :
    wSSR.hasWindow = false ∧
    lookupStore [] "(max-width: 768px)" = none ∧
    useMediaQuery wSSR [] "(max-width: 768px)"
      = .ok ([("(max-width: 768px)", .ssr)], false) :=
  ⟨rfl, rfl, (C1_ssr_fallback wSSR "(max-width: 768px)" 0 [] rfl).2.2.2.2 rfl⟩

/-- C2: a store created with a live window snapshots the environment's
current match state for its query at the instant of each call — after
the match state changes and the change notification is dispatched, the
next read returns the new value — and the unnamed variant's
`getSnapshot` likewise reads `matchMedia(query).matches` at call
time. -/
theorem C2_snapshot_freshness (q : String) (w : World)
    (hw : w.hasWindow = true) :
    ∃ s, createMediaQueryStore w q = .ok s ∧
      (∀ wNow : World, s.getSnapshot wNow = wNow.mediaMatches q) ∧
      (∀ m : String → Bool, s.getSnapshot (dispatchChange w q m).1 = m q) ∧
      (∀ wNow : World, wNow.hasWindow = true →
        V2.getSnapshot q wNow = .ok (wNow.mediaMatches q)) := by
  refine ⟨.live q, ?_, fun wNow => rfl, fun m => rfl, fun wNow hwn => ?_⟩
  · simp [createMediaQueryStore_eq, hw]
  · unfold V2.getSnapshot matchMedia
    simp only [hwn, if_true]
    rfl

/-- Witness for C2: a live window whose match state is `false`
everywhere. -/
theorem C2_snapshot_freshness_witness :
    w0.hasWindow = true ∧
    ∃ s, createMediaQueryStore w0 "(orientation: landscape)" = .ok s ∧
      (∀ wNow : World,
        s.getSnapshot wNow = wNow.mediaMatches "(orientation: landscape)") ∧
      (∀ m : String → Bool,
        s.getSnapshot (dispatchChange w0 "(orientation: landscape)" m).1
          = m "(orientation: landscape)") ∧
      (∀ wNow : World, wNow.hasWindow = true →
        V2.getSnapshot "(orientation: landscape)" wNow
          = .ok (wNow.mediaMatches "(orientation: landscape)")) :=
  ⟨rfl, C2_snapshot_freshness "(orientation: landscape)" w0 rfl⟩

/-- C3: registry memoization — a cached hit returns the cached store
with no new construction, a miss constructs via the factory and inserts
the store, every later `getStore` call on the resulting registry returns
the same instance unchanged, and key-uniqueness of the cache is
preserved. -/
theorem C3_registry_memoization (w wLater : World) (reg : Registry)
    (q : String) :
    (∀ s, lookupStore reg q = some s → getStore w reg q = .ok (reg, s)) ∧
    (lookupStore reg q = none →
      getStore w reg q
        = .ok ((q, if w.hasWindow then MediaQueryStore.live q else .ssr) :: reg,
            if w.hasWindow then MediaQueryStore.live q else .ssr)) ∧
    (∀ regOut s, getStore w reg q = .ok (regOut, s) →
      getStore wLater regOut q = .ok (regOut, s)) ∧
    (∀ regOut s, uniqueKeys reg = true → getStore w reg q = .ok (regOut, s) →
      uniqueKeys regOut = true) := by
  refine ⟨fun s h => getStore_hit w h, fun h => getStore_miss w h, ?_, ?_⟩
  · intro regOut s hg
    cases hl : lookupStore reg q with
    | some s0 =>
      rw [getStore_hit w hl] at hg
      simp only [Except.ok.injEq, Prod.mk.injEq] at hg
      obtain ⟨h1, h2⟩ := hg
      subst h1; subst h2
      exact getStore_hit wLater hl
    | none =>
      rw [getStore_miss w hl] at hg
      simp only [Except.ok.injEq, Prod.mk.injEq] at hg
      obtain ⟨h1, h2⟩ := hg
      subst h1; subst h2
      exact getStore_hit wLater (lookupStore_cons_self q _ reg)
  · intro regOut s hu hg
    cases hl : lookupStore reg q with
    | some s0 =>
      rw [getStore_hit w hl] at hg
      simp only [Except.ok.injEq, Prod.mk.injEq] at hg
      obtain ⟨h1, _⟩ := hg
      subst h1
      exact hu
    | none =>
      rw [getStore_miss w hl] at hg
      simp only [Except.ok.injEq, Prod.mk.injEq] at hg
      obtain ⟨h1, _⟩ := hg
      subst h1
      simp [uniqueKeys, hl, hu]

/-- Witness for C3: the first call on an empty cache inserts the live
store; a later call — even from a different world — returns the same
instance. -/
theorem C3_registry_memoization_witness :
    lookupStore [] "(max-width: 768px)" = none ∧
    getStore w0 [] "(max-width: 768px)"
      = .ok ([("(max-width: 768px)", .live "(max-width: 768px)")],
          .live "(max-width: 768px)") ∧
    getStore wSSR [("(max-width: 768px)", .live "(max-width: 768px)")]
        "(max-width: 768px)"
      = .ok ([("(max-width: 768px)", .live "(max-width: 768px)")],
          .live "(max-width: 768px)") :=
  ⟨rfl, rfl,
    (C3_registry_memoization w0 wSSR [] "(max-width: 768px)").2.2.1
      [("(max-width: 768px)", .live "(max-width: 768px)")]
      (.live "(max-width: 768px)") rfl⟩

/-- C4: the boolean returned by the public read operation at a
synchronous read is exactly `getSnapshot()` of the store the registry
associates with the query at that instant. -/
theorem C4_read_equals_snapshot (w : World) (reg regOut : Registry)
    (q : String) (s : MediaQueryStore)
    (h : getStore w reg q = .ok (regOut, s)) :
    useMediaQuery w reg q = .ok (regOut, s.getSnapshot w) :=
  useMediaQuery_eq h

/-- Witness for C4 at a concrete world, cache and query. -/
theorem C4_read_equals_snapshot_witness :
    getStore w0 [] "(max-width: 768px)"
      = .ok ([("(max-width: 768px)", .live "(max-width: 768px)")],
          .live "(max-width: 768px)") ∧
    useMediaQuery w0 [] "(max-width: 768px)"
      = .ok ([("(max-width: 768px)", .live "(max-width: 768px)")],
          (MediaQueryStore.live "(max-width: 768px)").getSnapshot w0) :=
  ⟨rfl,
    C4_read_equals_snapshot w0 []
      [("(max-width: 768px)", .live "(max-width: 768px)")]
      "(max-width: 768px)" (.live "(max-width: 768px)") rfl⟩

/-- C5: the cleanup returned by `subscribe` deregisters every listener
that invocation registered, and invoking it more than once is a safe
no-op: the cached-store variant's cleanup restores the pre-subscribe
world exactly and is idempotent, and the unnamed variant's abort removes
all three registrations of the invocation, leaves no change listener for
the callback, and is idempotent. -/
theorem C5_cleanup_complete_idempotent (q : String) (cb : Nat) (w : World)
    (h1 : hasListener w.regs (.mql q) cb = false)
    (hw : w.hasWindow = true)
    (hf : ctrlsFresh w = true)
    (h2 : hasListener w.regs .winOrientation cb = false)
    (h3 : hasListener w.regs .winResize cb = false) :
    runCleanup ((MediaQueryStore.live q).subscribe cb w).2
        ((MediaQueryStore.live q).subscribe cb w).1 = w ∧
    (∀ wAny : World, runCleanup ((MediaQueryStore.live q).subscribe cb w).2
        (runCleanup ((MediaQueryStore.live q).subscribe cb w).2 wAny)
      = runCleanup ((MediaQueryStore.live q).subscribe cb w).2 wAny) ∧
    (∃ wSub, V2.subscribe q cb w = .ok (wSub, .abortCtrl w.nextCtrl) ∧
      (runCleanup (.abortCtrl w.nextCtrl) wSub).regs = w.regs ∧
      hasListener (runCleanup (.abortCtrl w.nextCtrl) wSub).regs
        (.mql q) cb = false ∧
      (∀ wAny : World, runCleanup (.abortCtrl w.nextCtrl)
          (runCleanup (.abortCtrl w.nextCtrl) wAny)
        = runCleanup (.abortCtrl w.nextCtrl) wAny)) := by
  have hregs : (runCleanup (.abortCtrl w.nextCtrl)
      ({ w with
          nextCtrl := w.nextCtrl + 1,
          regs := w.regs ++ [⟨.mql q, cb, some w.nextCtrl⟩,
            ⟨.winOrientation, cb, some w.nextCtrl⟩,
            ⟨.winResize, cb, some w.nextCtrl⟩] } : World)).regs = w.regs := by
    simp only [runCleanup, abortListeners]
    simp only [List.filter_append, filter_signal_fresh hf]
    simp
  refine ⟨remove_add_cancel none h1,
    fun wAny => removeEventListener_idem wAny (.mql q) cb,
    ⟨_, V2_subscribe_eq hw h1 h2 h3, hregs, ?_,
      fun wAny => abortListeners_idem wAny w.nextCtrl⟩⟩
  rw [hregs]
  exact h1

/-- Witness for C5: a fresh live world, a concrete query and callback
id. -/
theorem C5_cleanup_complete_idempotent_witness :
    hasListener w0.regs (.mql "(max-width: 768px)") 0 = false ∧
    w0.hasWindow = true ∧ ctrlsFresh w0 = true ∧
    hasListener w0.regs .winOrientation 0 = false ∧
    hasListener w0.regs .winResize 0 = false ∧
    runCleanup ((MediaQueryStore.live "(max-width: 768px)").subscribe 0 w0).2
        ((MediaQueryStore.live "(max-width: 768px)").subscribe 0 w0).1 = w0 :=
  ⟨rfl, rfl, rfl, rfl, rfl,
    (C5_cleanup_complete_idempotent "(max-width: 768px)" 0 w0
      rfl rfl rfl rfl rfl).1⟩

/-- C6: after subscribing a callback on the live store for a query,
dispatching the environment's change notification for that query invokes
the callback — it is in the fired list, which the model orders before
the next snapshot read — and the snapshot read after the dispatch
returns the post-change value, never the pre-change one. -/
theorem C6_change_notifies_before_read (w : World) (q : String) (cb : Nat)
    (m : String → Bool) :
    cb ∈ (dispatchChange ((MediaQueryStore.live q).subscribe cb w).1 q m).2 ∧
    (MediaQueryStore.live q).getSnapshot
        (dispatchChange ((MediaQueryStore.live q).subscribe cb w).1 q m).1
      = m q :=
  ⟨cb_mem_dispatch (hasListener_addEventListener w (.mql q) cb none) m, rfl⟩

/-- C7: two subscriptions with distinct callbacks on the shared live
store are independent — running the first subscription's cleanup removes
the first callback's change registration and only it: the second
callback remains registered and still fires on the next change
notification. -/
theorem C7_independent_subscriptions (w : World) (q : String)
    (cb1 cb2 : Nat) (hne : cb1 ≠ cb2) (m : String → Bool) :
    hasListener (runCleanup ((MediaQueryStore.live q).subscribe cb1 w).2
        ((MediaQueryStore.live q).subscribe cb2
          ((MediaQueryStore.live q).subscribe cb1 w).1).1).regs
      (.mql q) cb2 = true ∧
    cb2 ∈ (dispatchChange
        (runCleanup ((MediaQueryStore.live q).subscribe cb1 w).2
          ((MediaQueryStore.live q).subscribe cb2
            ((MediaQueryStore.live q).subscribe cb1 w).1).1) q m).2 ∧
    hasListener (runCleanup ((MediaQueryStore.live q).subscribe cb1 w).2
        ((MediaQueryStore.live q).subscribe cb2
          ((MediaQueryStore.live q).subscribe cb1 w).1).1).regs
      (.mql q) cb1 = false := by
  have hsub2 : hasListener ((MediaQueryStore.live q).subscribe cb2
      ((MediaQueryStore.live q).subscribe cb1 w).1).1.regs (.mql q) cb2
      = true :=
    hasListener_addEventListener _ (.mql q) cb2 none
  have hkeep : hasListener (removeEventListener
      ((MediaQueryStore.live q).subscribe cb2
        ((MediaQueryStore.live q).subscribe cb1 w).1).1 (.mql q) cb1).regs
      (.mql q) cb2 = true :=
    hasListener_remove_ne hne hsub2
  exact ⟨hkeep, cb_mem_dispatch hkeep m,
    hasListener_remove_self _ (.mql q) cb1⟩

/-- Witness for C7: callbacks 0 and 1 on the same live store; after
cleaning up the first subscription the second stays registered. -/
theorem C7_independent_subscriptions_witness :
    (0 : Nat) ≠ 1 ∧
    hasListener (runCleanup
        ((MediaQueryStore.live "(orientation: landscape)").subscribe 0 w0).2
        ((MediaQueryStore.live "(orientation: landscape)").subscribe 1
          ((MediaQueryStore.live "(orientation: landscape)").subscribe
            0 w0).1).1).regs
      (.mql "(orientation: landscape)") 1 = true :=
  ⟨by decide,
    (C7_independent_subscriptions w0 "(orientation: landscape)" 0 1
      (by decide) (fun _ => true)).1⟩

/-- C8: two independent consumers reading the same query string against
the same environment state observe identical values — the second
interleaved read returns the same boolean and leaves the registry
unchanged. -/
theorem C8_interleaved_reads_agree (w : World) (reg : Registry)
    (q : String) :
    ∃ regOut b, useMediaQuery w reg q = .ok (regOut, b) ∧
      useMediaQuery w regOut q = .ok (regOut, b) := by
  cases hl : lookupStore reg q with
  | some s =>
    exact ⟨reg, s.getSnapshot w, useMediaQuery_eq (getStore_hit w hl),
      useMediaQuery_eq (getStore_hit w hl)⟩
  | none =>
    exact ⟨(q, if w.hasWindow then .live q else .ssr) :: reg, _,
      useMediaQuery_eq (getStore_miss w hl),
      useMediaQuery_eq (getStore_hit w (lookupStore_cons_self q _ reg))⟩

/-- C9: with a live window the two variants' snapshot reads are
observably equivalent — both return the environment's
`matchMedia(query).matches` at call time — while their subscribe
operations differ exactly as described: the cached-store variant
registers only the media-query change listener, the unnamed variant
additionally registers window orientationchange and resize listeners
re-invoking the same callback. -/
theorem C9_variant_equivalence (w : World) (q : String) (cb : Nat)
    (hw : w.hasWindow = true)
    (h1 : hasListener w.regs (.mql q) cb = false)
    (h2 : hasListener w.regs .winOrientation cb = false)
    (h3 : hasListener w.regs .winResize cb = false) :
    createMediaQueryStore w q = .ok (.live q) ∧
    (∀ wNow : World, wNow.hasWindow = true →
      V2.getSnapshot q wNow
        = .ok ((MediaQueryStore.live q).getSnapshot wNow)) ∧
    ((MediaQueryStore.live q).subscribe cb w).1.regs
      = w.regs ++ [⟨.mql q, cb, none⟩] ∧
    (∃ wSub, V2.subscribe q cb w = .ok (wSub, .abortCtrl w.nextCtrl) ∧
      wSub.regs = w.regs ++ [⟨.mql q, cb, some w.nextCtrl⟩,
        ⟨.winOrientation, cb, some w.nextCtrl⟩,
        ⟨.winResize, cb, some w.nextCtrl⟩]) := by
  refine ⟨by simp [createMediaQueryStore_eq, hw], fun wNow hwn => ?_, ?_, ?_⟩
  · unfold V2.getSnapshot matchMedia
    simp only [hwn, if_true]
    rfl
  · rw [show ((MediaQueryStore.live q).subscribe cb w).1
        = addEventListener w (.mql q) cb none from rfl,
      addEventListener_of_not none h1]
  · exact ⟨_, V2_subscribe_eq hw h1 h2 h3, rfl⟩

/-- Witness for C9 at a fresh live world. -/
theorem C9_variant_equivalence_witness :
    w0.hasWindow = true ∧
    hasListener w0.regs (.mql "(max-width: 768px)") 0 = false ∧
    hasListener w0.regs .winOrientation 0 = false ∧
    hasListener w0.regs .winResize 0 = false ∧
    createMediaQueryStore w0 "(max-width: 768px)"
      = .ok (.live "(max-width: 768px)") :=
  ⟨rfl, rfl, rfl, rfl,
    (C9_variant_equivalence w0 "(max-width: 768px)" 0 rfl rfl rfl rfl).1⟩

/-- C10: the no-window decision is frozen by the cache — a store first
created without a window is the SSR store, and once it is cached, in
every later world, even one with a live window, `getStore` returns that
SSR store, the read returns `false`, and its subscribe registers
nothing. -/
theorem C10_ssr_store_frozen (q : String) (reg : Registry) (wSrv : World)
    (cb : Nat) (hw : wSrv.hasWindow = false)
    (hl : lookupStore reg q = none) :
    getStore wSrv reg q = .ok ((q, .ssr) :: reg, .ssr) ∧
    (∀ wNow : World,
      getStore wNow ((q, .ssr) :: reg) q = .ok ((q, .ssr) :: reg, .ssr)) ∧
    (∀ wNow : World,
      useMediaQuery wNow ((q, .ssr) :: reg) q
        = .ok ((q, .ssr) :: reg, false)) ∧
    (∀ wNow : World, MediaQueryStore.ssr.subscribe cb wNow = (wNow, .noop)) := by
  have hmiss := getStore_miss wSrv hl
  simp only [hw, Bool.false_eq_true, if_false] at hmiss
  exact ⟨hmiss, fun wNow => getStore_hit wNow (lookupStore_cons_self q _ reg),
    fun wNow => useMediaQuery_eq (getStore_hit wNow (lookupStore_cons_self q _ reg)),
    fun wNow => rfl⟩

/-- Witness for C10: the store is created in a windowless world and then
read from a world with a live window; the read still returns `false`. -/
theorem C10_ssr_store_frozen_witness :
    wSSR.hasWindow = false ∧
    lookupStore [] "(prefers-color-scheme: dark)" = none ∧
    w0.hasWindow = true ∧
    useMediaQuery w0 [("(prefers-color-scheme: dark)", .ssr)]
        "(prefers-color-scheme: dark)"
      = .ok ([("(prefers-color-scheme: dark)", .ssr)], false) :=
  ⟨rfl, rfl, rfl,
    (C10_ssr_store_frozen "(prefers-color-scheme: dark)" [] wSSR 0
      rfl rfl).2.2.1 w0⟩
